import Mathlib

/-!
Verification of the Trust & Validation Engine of the invoice-extraction
backend.  The definitions below are a shallow embedding of the Python
source (`backend/services/validation.py` and `backend/routers/ocr.py`):
Python floats are modelled as rational numbers (`ℚ`), dictionaries with
optional keys as structures of `Option` fields, and fallible operations
as `Option`-returning functions.  String data is kept as Lean `String`
(operated on as `List Char`).
-/

unseal Rat.add Rat.mul Rat.inv Rat.sub

namespace InvoiceX

/-- Characters stripped by Python's default `str.strip()` and matched by
the regex class `\s` (the ASCII whitespace set; exotic unicode whitespace
is not modelled, no currency string in scope contains it). -/
def isPySpace (c : Char) : Bool :=
  c = ' ' || c = '\t' || c = '\n' || c = '\r' || c = '\x0b' || c = '\x0c'

/-- Model of `str.strip()`: drop leading and trailing whitespace. -/
def stripWs (s : List Char) : List Char :=
  ((s.dropWhile isPySpace).reverse.dropWhile isPySpace).reverse

def isParen (c : Char) : Bool := c = '(' || c = ')'

/-- Model of `str.strip('()')`: drop leading and trailing parentheses. -/
def stripParens (s : List Char) : List Char :=
  ((s.dropWhile isParen).reverse.dropWhile isParen).reverse

/-- Currency symbols removed by `re.sub(r'[$€£¥\s]', '', value)`. -/
def isCurrencySym (c : Char) : Bool :=
  c = '$' || c = '€' || c = '£' || c = '¥'

/-- Decimal value of a digit string (most significant first). -/
def digitsToNat (ds : List Char) : ℕ :=
  ds.foldl (fun a c => 10 * a + (c.toNat - 48)) 0

/-- Core of Python's `float()` on an already-stripped string: an optional
sign followed by digits with at most one decimal point and at least one
digit.  Exponent notation, `inf`/`nan` and digit-group underscores, which
Python also accepts, are not modelled (currency text never produces
them). -/
def pyFloatCore (s : List Char) : Option ℚ :=
  let ip := s.takeWhile Char.isDigit
  match s.drop ip.length with
  | [] => if ip.isEmpty then none else some (digitsToNat ip : ℚ)
  | '.' :: frac =>
      if frac.all Char.isDigit && !(ip.isEmpty && frac.isEmpty) then
        some ((digitsToNat ip : ℚ) + (digitsToNat frac : ℚ) / (10 ^ frac.length : ℚ))
      else none
  | _ => none

/-- Model of Python's `float(str)`: strip whitespace, handle a sign,
parse a decimal literal; `none` models a raised `ValueError`. -/
def pyFloat? (s : List Char) : Option ℚ :=
  match stripWs s with
  | '-' :: t => (pyFloatCore t).map (fun q => -q)
  | '+' :: t => pyFloatCore t
  | t => pyFloatCore t

/-- Decimal/thousands separator disambiguation of `parse_currency`
(`validation.py` lines 53-69): with both `,` and `.` present the one
occurring last is the decimal separator; with only `,` present it is a
thousands separator exactly when three characters follow the last comma. -/
def sepNormalize (v : List Char) : List Char :=
  let hasComma := v.any (fun c => c = ',')
  let hasDot := v.any (fun c => c = '.')
  if hasComma && hasDot then
    match v.reverse.find? (fun c => c = ',' || c = '.') with
    | some ',' => (v.filter (fun c => c ≠ '.')).map (fun c => if c = ',' then '.' else c)
    | _ => v.filter (fun c => c ≠ ',')
  else if hasComma then
    if (v.reverse.takeWhile (fun c => c ≠ ',')).length = 3 then
      v.filter (fun c => c ≠ ',')
    else
      v.map (fun c => if c = ',' then '.' else c)
  else v

/-- Negativity test of `parse_currency`: the stripped value starts with `(`
and ends with `)` (`validation.py` line 46). -/
def currencyIsNegative (s : String) : Bool :=
  let st := stripWs s.data
  decide (st.head? = some '(') && decide (st.getLast? = some ')')

/-- The character data handed to `float()` inside `parse_currency`:
parenthesis stripping (applied to the original, unstripped value, as in
the source), currency-symbol/whitespace removal, then separator
normalization. -/
def currencyNormalized (s : String) : List Char :=
  let v := if currencyIsNegative s then stripParens s.data else s.data
  sepNormalize (v.filter (fun c => !(isCurrencySym c || isPySpace c)))

/-- Model of `parse_currency` (`validation.py` lines 29-76).  Total: the
`except ValueError` branch returns `0.0`, modelled by the `none` case. -/
def parse_currency (s : String) : ℚ :=
  if s.data.isEmpty then 0
  else
    match pyFloat? (currencyNormalized s) with
    | none => 0
    | some q => if currencyIsNegative s then -q else q

/-- Model of Python's `round(x, 2)`.  Python uses round-half-even; the
two differ only on exact half-cent ties, which no claim exercises. -/
def round2 (q : ℚ) : ℚ := (round (q * 100) : ℤ) / 100

/-- Model of `float(item.get('quantity', 0))`: a missing key defaults to the
number `0`, a present value is parsed as a float. -/
def qtyFloat (v : Option String) : Option ℚ :=
  match v with
  | none => some 0
  | some s => pyFloat? s.data

/-- The confidence tiering of `validate_line_item`
(`validation.py` lines 109-117) as a function of the difference. -/
def tierConf (d : ℚ) : ℚ :=
  if d ≤ 1/100 then 99/100
  else if d < 1/10 then 9/10
  else if d < 1 then 7/10
  else 3/10

/-- A raw line item as passed to `validate_line_item`: a dictionary with
optional string values (the batch pipeline normalizes every field to a
string before validation). -/
structure LineItem where
  item : Option String
  quantity : Option String
  rate : Option String
  amount : Option String
deriving DecidableEq, Repr

/-- Result dictionary of `validate_line_item`; `error := true` models the
populated `'error'` message of the parse-failure branch. -/
structure LineItemResult where
  valid : Bool
  quantity : Option ℚ
  rate : Option ℚ
  calculated_amount : Option ℚ
  stated_amount : Option ℚ
  difference : Option ℚ
  confidence : ℚ
  error : Bool
deriving DecidableEq, Repr

/-- Model of `validate_line_item` (`validation.py` lines 79-140). -/
def validate_line_item (it : LineItem) : LineItemResult :=
  match qtyFloat it.quantity with
  | none =>
      { valid := false, quantity := none, rate := none, calculated_amount := none,
        stated_amount := none, difference := none, confidence := 0, error := true }
  | some q =>
      let rate := parse_currency (it.rate.getD "0")
      let stated_amount := parse_currency (it.amount.getD "0")
      let difference := |q * rate - stated_amount|
      { valid := decide (difference ≤ 1/100),
        quantity := some q,
        rate := some rate,
        calculated_amount := some (round2 (q * rate)),
        stated_amount := some stated_amount,
        difference := some (round2 difference),
        confidence := tierConf difference,
        error := false }

/-- Severity levels of `ValidationIssue` and `ReviewDecision`. -/
inductive Severity where
  | CRITICAL
  | MEDIUM
  | LOW
  | NONE
deriving DecidableEq, Repr

/-- The `'field'` string of an issue, encoded injectively:
`'line_item_{i}'`, `'subtotal'`, `'total'`, `'line_items'`. -/
inductive IssueField where
  | line_item (i : ℕ)
  | subtotal
  | total
  | line_items
deriving DecidableEq, Repr

inductive ActionRequired where
  | VERIFY_WITH_PDF
deriving DecidableEq, Repr

/-- An entry of the `errors`/`warnings` lists of `validate_invoice_math`.
The human-readable `message`/`item_name` strings and the nested
`calculation_breakdown` dict, which repeat the numeric data for display
only, are not modelled. -/
structure ValidationIssue where
  severity : Severity
  field : IssueField
  difference : Option ℚ
  action_required : Option ActionRequired
deriving DecidableEq, Repr

/-- Result dictionary of `validate_invoice_math`.  Keys that the code
only sets on some paths (`stated_subtotal` when no subtotal is stated,
the three total keys when no total is stated) are `Option`s. -/
structure MathValidationResult where
  line_items_valid : Bool
  subtotal_valid : Bool
  total_valid : Bool
  overall_valid : Bool
  line_items : List LineItemResult
  errors : List ValidationIssue
  warnings : List ValidationIssue
  calculated_subtotal : ℚ
  stated_subtotal : Option ℚ
  calculated_total : Option ℚ
  stated_total : Option ℚ
  total_difference : Option ℚ
deriving DecidableEq, Repr

/-- The invoice dictionary consumed by `validate_invoice_math`: a line
item list plus optional currency-text fields (each read with
`.get(key, '0')`). -/
structure InvoiceData where
  line_items : List LineItem
  subtotal : Option String
  total_amount : Option String
  shipping : Option String
  discount_amount : Option String
  tax : Option String
deriving DecidableEq, Repr

/-- Per-item validation results, in original order (`validation.py`
lines 174-176). -/
def lineValidations (inv : InvoiceData) : List LineItemResult :=
  inv.line_items.map validate_line_item

/-- The CRITICAL error appended for an invalid line item
(`validation.py` lines 180-187). -/
def lineItemIssue (i : ℕ) (v : LineItemResult) : ValidationIssue :=
  { severity := .CRITICAL, field := .line_item i, difference := v.difference,
    action_required := some .VERIFY_WITH_PDF }

/-- The per-item half of the validation loop: one CRITICAL error per
invalid item, indexed as by `enumerate`. -/
def lineErrorsAux : ℕ → List LineItemResult → List ValidationIssue
  | _, [] => []
  | i, v :: rest =>
      (if v.valid = false then [lineItemIssue i v] else []) ++ lineErrorsAux (i + 1) rest

def lineErrors (vs : List LineItemResult) : List ValidationIssue :=
  lineErrorsAux 0 vs

/-- Model of `line_item_sum`: the stated amounts accumulated by the loop
(`validation.py` lines 189-191); a `None` stated amount (parse failure)
is skipped. -/
def lineItemSum (vs : List LineItemResult) : ℚ :=
  vs.foldl (fun acc v => match v.stated_amount with | some a => acc + a | none => acc) 0

def statedSubtotal (inv : InvoiceData) : ℚ :=
  parse_currency (inv.subtotal.getD "0")

def statedTotal (inv : InvoiceData) : ℚ :=
  parse_currency (inv.total_amount.getD "0")

/-- The subtotal check fires only when a positive subtotal is stated and
the difference reaches one cent (`if subtotal_difference >= 0.01`,
`validation.py` line 198 — note `>=`, not `>`). -/
def subtotalFail (inv : InvoiceData) : Bool :=
  decide (0 < statedSubtotal inv) &&
    decide (1/100 ≤ |lineItemSum (lineValidations inv) - statedSubtotal inv|)

def subtotalIssue (inv : InvoiceData) : ValidationIssue :=
  { severity := .CRITICAL, field := .subtotal,
    difference := some (round2 |lineItemSum (lineValidations inv) - statedSubtotal inv|),
    action_required := some .VERIFY_WITH_PDF }

/-- Model of `calculated_total = subtotal_for_calc + shipping - discount + tax`,
preferring the stated subtotal when positive (`validation.py`
lines 222-227). -/
def calculatedTotal (inv : InvoiceData) : ℚ :=
  (if 0 < statedSubtotal inv then statedSubtotal inv
   else lineItemSum (lineValidations inv)) +
    parse_currency (inv.shipping.getD "0") -
    parse_currency (inv.discount_amount.getD "0") +
    parse_currency (inv.tax.getD "0")

/-- The total check fires only when a positive total is stated and the
difference reaches one cent (`if total_difference >= 0.01`,
`validation.py` line 230). -/
def totalFail (inv : InvoiceData) : Bool :=
  decide (0 < statedTotal inv) &&
    decide (1/100 ≤ |calculatedTotal inv - statedTotal inv|)

def totalIssue (inv : InvoiceData) : ValidationIssue :=
  { severity := .CRITICAL, field := .total,
    difference := some (round2 |calculatedTotal inv - statedTotal inv|),
    action_required := some .VERIFY_WITH_PDF }

/-- Model of `validate_invoice_math` (`validation.py` lines 143-259). -/
def validate_invoice_math (inv : InvoiceData) : MathValidationResult :=
  { line_items_valid := (lineValidations inv).all (fun v => v.valid)
    subtotal_valid := !subtotalFail inv
    total_valid := !totalFail inv
    overall_valid :=
      (lineValidations inv).all (fun v => v.valid) && !subtotalFail inv && !totalFail inv
    line_items := lineValidations inv
    errors :=
      lineErrors (lineValidations inv) ++
        (if subtotalFail inv then [subtotalIssue inv] else []) ++
        (if totalFail inv then [totalIssue inv] else [])
    warnings :=
      if inv.line_items.isEmpty then
        [{ severity := .MEDIUM, field := .line_items, difference := none,
           action_required := none }]
      else []
    calculated_subtotal := round2 (lineItemSum (lineValidations inv))
    stated_subtotal :=
      if 0 < statedSubtotal inv then some (statedSubtotal inv) else none
    calculated_total :=
      if 0 < statedTotal inv then some (round2 (calculatedTotal inv)) else none
    stated_total := if 0 < statedTotal inv then some (statedTotal inv) else none
    total_difference :=
      if 0 < statedTotal inv then some (round2 |calculatedTotal inv - statedTotal inv|)
      else none }

/-- Model of `calculate_validation_confidence` (`validation.py` lines 262-285). -/
def calculate_validation_confidence (r : MathValidationResult) : ℚ :=
  if r.overall_valid then 1
  else
    let critical_errors := (r.errors.filter (fun e => e.severity = Severity.CRITICAL)).length
    if critical_errors = 0 then 95/100
    else if critical_errors = 1 then 6/10
    else if critical_errors = 2 then 4/10
    else 2/10

inductive ReviewStatus where
  | AUTO_APPROVED
  | APPROVED_WITH_VERIFICATION
  | REQUIRES_REVIEW
deriving DecidableEq, Repr

inductive ReviewReason where
  | MATH_VALIDATION_FAILED
  | MISSING_CRITICAL_FIELDS
  | HIGH_CONFIDENCE_AND_VALIDATED
  | MATH_VALIDATED_MEDIUM_CONFIDENCE
  | BELOW_CONFIDENCE_THRESHOLD
deriving DecidableEq, Repr

structure ReviewDecision where
  status : ReviewStatus
  reason : ReviewReason
  severity : Severity
  auto_approve : Bool
  message : String
deriving DecidableEq, Repr

/-- Model of `determine_review_status` (`validation.py` lines 288-347): a strict
priority decision table. -/
def determine_review_status (confidence : ℚ) (validation_results : MathValidationResult)
    (has_critical_fields : Bool) : ReviewDecision :=
  if validation_results.overall_valid = false then
    { status := .REQUIRES_REVIEW, reason := .MATH_VALIDATION_FAILED,
      severity := .CRITICAL, auto_approve := false,
      message := "Mathematical discrepancies detected. Manual verification required." }
  else if has_critical_fields = false then
    { status := .REQUIRES_REVIEW, reason := .MISSING_CRITICAL_FIELDS,
      severity := .CRITICAL, auto_approve := false,
      message := "Required fields missing. Manual entry required." }
  else if 95/100 ≤ confidence then
    { status := .AUTO_APPROVED, reason := .HIGH_CONFIDENCE_AND_VALIDATED,
      severity := .NONE, auto_approve := true,
      message := "All validations passed. Approved automatically." }
  else if 85/100 ≤ confidence then
    { status := .APPROVED_WITH_VERIFICATION, reason := .MATH_VALIDATED_MEDIUM_CONFIDENCE,
      severity := .LOW, auto_approve := true,
      message := "Math validated but some fields have medium confidence. Review recommended but not required." }
  else
    { status := .REQUIRES_REVIEW, reason := .BELOW_CONFIDENCE_THRESHOLD,
      severity := .MEDIUM, auto_approve := false,
      message := "Confidence below threshold. Manual review required." }

/-- An invoice with no line items and no stated amounts: fully valid. -/
def emptyInvoice : InvoiceData :=
  { line_items := [], subtotal := none, total_amount := none, shipping := none,
    discount_amount := none, tax := none }

/-- A line item whose stated amount disagrees with quantity × rate by 3. -/
def badItem : LineItem :=
  { item := none, quantity := some "1", rate := some "2", amount := some "5" }

/-- A consistent line item: 1 × 10 = 10. -/
def goodItem : LineItem :=
  { item := none, quantity := some "1", rate := some "10", amount := some "10" }

def oneBadInvoice : InvoiceData :=
  { emptyInvoice with line_items := [badItem] }

def twoBadInvoice : InvoiceData :=
  { emptyInvoice with line_items := [badItem, badItem] }

def threeBadInvoice : InvoiceData :=
  { emptyInvoice with line_items := [badItem, badItem, badItem] }

/-- A consistent line item stating 1 × 1.02 = 1.02. -/
def centItem : LineItem :=
  { item := none, quantity := some "1", rate := some "1.02", amount := some "1.02" }

/-- Line items sum to 1.02 while the stated subtotal is 1.01: the
decimal difference is exactly one cent.  At this input the exact
rational model agrees with the program's IEEE-double evaluation: the
float subtraction `1.02 - 1.01` is exact and yields about
0.010000000000000009, which is above the double nearest to 0.01
(about 0.010000000000000000208), so `subtotal_difference >= 0.01` is
true and the running program emits the subtotal error here as well.
(An input such as sum 10.00 against stated 10.01 would not do: there
the float difference 0.009999999999999787 falls below the 0.01
literal, so the program does not flag it even though the decimal
difference is also one cent.) -/
def oneCentSubInvoice : InvoiceData :=
  { emptyInvoice with line_items := [centItem], subtotal := some "1.01" }

example : (validate_invoice_math emptyInvoice).overall_valid = true := by decide
example : calculate_validation_confidence (validate_invoice_math oneBadInvoice) = 6/10 := by decide
example : (validate_invoice_math oneCentSubInvoice).subtotal_valid = false := by decide

/-- A JSON value inside the raw extraction: a string, a number, or a
dict (kept abstract as its truthiness, the only thing the scorer asks
of a dict). -/
inductive JVal where
  | str (t : String)
  | num (q : ℚ)
  | dict (nonempty : Bool)
deriving DecidableEq, Repr

/-- Python truthiness of a `JVal`. -/
def truthy : JVal → Bool
  | .str t => !t.data.isEmpty
  | .num q => decide (q ≠ 0)
  | .dict ne => ne

def truthyOpt : Option JVal → Bool
  | none => false
  | some v => truthy v

/-- The `financial_summary` sub-dict as read by the scorer (`discount` and
`balance_due` are not inspected there). -/
structure FinancialJson where
  total : Option JVal
  subtotal : Option JVal
  shipping : Option JVal
  tax : Option JVal
deriving DecidableEq, Repr

/-- A raw line item as read by the consistency check. -/
structure RawItemJson where
  item_name : Option JVal
  item : Option JVal
  quantity : Option JVal
  rate : Option JVal
  amount : Option JVal
deriving DecidableEq, Repr

/-- The raw extraction JSON as read by
`calculate_extraction_confidence`. -/
structure InvoiceJson where
  invoice_number : Option JVal
  date : Option JVal
  vendor : Option JVal
  customer : Option JVal
  shipping_info : Option JVal
  order_id : Option JVal
  line_items : Option (List RawItemJson)
  financial_summary : Option FinancialJson
deriving DecidableEq, Repr

/-- Critical-field presence indicators (`ocr.py` lines 97-105). -/
def criticalPresent (j : InvoiceJson) : ℕ :=
  List.countP (fun b => b)
    [truthyOpt j.invoice_number, truthyOpt j.date,
     match j.financial_summary with
     | some f => truthyOpt f.total
     | none => false]

/-- Invoice-number quality check (`ocr.py` lines 113-118): pairs are
(score contribution, checks contribution); a falsy value skips the
check entirely. -/
def qualInvNum : Option JVal → ℚ × ℕ
  | some (.str t) => if t.data.isEmpty then (0, 0) else (1, 1)
  | some (.num q) => if q = 0 then (0, 0) else (0, 1)
  | some (.dict ne) => if ne then (0, 1) else (0, 0)
  | none => (0, 0)

/-- Date quality check (`ocr.py` lines 120-124): a non-empty string
scores 0.9. -/
def qualDate : Option JVal → ℚ × ℕ
  | some (.str t) => if t.data.isEmpty then (0, 0) else (9/10, 1)
  | some (.num q) => if q = 0 then (0, 0) else (0, 1)
  | some (.dict ne) => if ne then (0, 1) else (0, 0)
  | none => (0, 0)

/-- One financial-field quality check (`ocr.py` lines 126-137): a string
that fails `float()` raises and skips the check (`except: pass`); a
numeric value always counts a check, scoring when non-negative; a
non-numeric, non-string value counts a check without scoring. -/
def finQualStep (acc : ℚ × ℕ) : Option JVal → ℚ × ℕ
  | none => acc
  | some (.str t) =>
      match pyFloat? t.data with
      | none => acc
      | some q => (acc.1 + (if 0 ≤ q then 1 else 0), acc.2 + 1)
  | some (.num q) => (acc.1 + (if 0 ≤ q then 1 else 0), acc.2 + 1)
  | some (.dict _) => (acc.1, acc.2 + 1)

/-- Accumulated (quality_score, quality_checks) after all checks. -/
def qualityCounts (j : InvoiceJson) : ℚ × ℕ :=
  let a := qualInvNum j.invoice_number
  let b := qualDate j.date
  [j.financial_summary.bind (fun f => f.total),
   j.financial_summary.bind (fun f => f.subtotal),
   j.financial_summary.bind (fun f => f.shipping),
   j.financial_summary.bind (fun f => f.tax)].foldl finQualStep (a.1 + b.1, a.2 + b.2)

/-- The 8 completeness indicators (`ocr.py` lines 141-158). -/
def fieldsPresentList (j : InvoiceJson) : List Bool :=
  [truthyOpt j.invoice_number, truthyOpt j.date, truthyOpt j.vendor,
   truthyOpt j.customer, truthyOpt j.shipping_info, truthyOpt j.order_id,
   (match j.line_items with
    | some items => !items.isEmpty
    | none => false),
   (match j.financial_summary with
    | some f => f.total.isSome || f.subtotal.isSome || f.shipping.isSome || f.tax.isSome
    | none => false)]

/-- Whether a raw line-item value converts to a number without raising
(`ocr.py` lines 175-182). -/
def numericOk : Option JVal → Bool
  | some (.num _) => true
  | some (.str t) => (pyFloat? t.data).isSome
  | some (.dict _) => false
  | none => false

/-- The consistency predicate on one line item (`ocr.py` lines 166-182):
quantity/rate/amount present (`is not None`), a truthy name field, and
all three values numeric. -/
def itemConsistent (it : RawItemJson) : Bool :=
  it.quantity.isSome && it.rate.isSome && it.amount.isSome &&
    (truthyOpt it.item_name || truthyOpt it.item) &&
    numericOk it.quantity && numericOk it.rate && numericOk it.amount

def fieldPresenceScore (j : InvoiceJson) : ℚ := (criticalPresent j : ℚ) / 3

def fieldQualityScore (j : InvoiceJson) : ℚ :=
  let sc := qualityCounts j
  if sc.2 = 0 then 1/2 else sc.1 / (sc.2 : ℚ)

def completenessScore (j : InvoiceJson) : ℚ :=
  ((fieldsPresentList j).countP (fun b => b) : ℚ) / 8

def dataConsistencyScore (j : InvoiceJson) : ℚ :=
  match j.line_items with
  | some items =>
      if items.isEmpty then 0
      else (items.countP itemConsistent : ℚ) / (items.length : ℚ)
  | none => 0

structure ExtractionScores where
  field_presence : ℚ
  field_quality : ℚ
  completeness : ℚ
  data_consistency : ℚ
deriving DecidableEq, Repr

structure ExtractionConfidenceResult where
  overall_confidence : ℚ
  field_presence_score : ℚ
  field_quality_score : ℚ
  completeness_score : ℚ
  data_consistency_score : ℚ
  scores : ExtractionScores
deriving DecidableEq, Repr

/-- Model of `calculate_extraction_confidence` (`ocr.py` lines 69-203). -/
def calculate_extraction_confidence (j : InvoiceJson) : ExtractionConfidenceResult :=
  let fp := fieldPresenceScore j
  let fq := fieldQualityScore j
  let comp := completenessScore j
  let dc := dataConsistencyScore j
  { overall_confidence :=
      round2 (fp * (30/100) + fq * (25/100) + comp * (20/100) + dc * (25/100)),
    field_presence_score := round2 fp,
    field_quality_score := round2 fq,
    completeness_score := round2 comp,
    data_consistency_score := round2 dc,
    scores := { field_presence := fp, field_quality := fq, completeness := comp,
                data_consistency := dc } }

example :
    (calculate_extraction_confidence
      { invoice_number := some (.str "INV-1"), date := some (.str "2024-01-01"),
        vendor := some (.dict true), customer := none, shipping_info := none,
        order_id := none,
        line_items := some [{ item_name := some (.str "Widget"), item := none,
                              quantity := some (.num 2), rate := some (.num 50),
                              amount := some (.num 100) }],
        financial_summary := some { total := some (.num 110), subtotal := some (.num 100),
                                    shipping := some (.num 10), tax := some (.num 0) } }).scores.data_consistency = 1 := by
  decide

/-- The per-document result dictionary produced by
`_process_single_invoice` as consumed by the aggregation loop.  The
producer always sets every key below; the nested `confidence` dict is
reduced to its `overall` value (the only entry the aggregator reads) and
the advisory `performance` timings are omitted. -/
structure SingleResult where
  invoice_uid : String
  filename : String
  invoice_number : String
  vendor_name : String
  date : String
  total_amount : ℚ
  subtotal : ℚ
  shipping : ℚ
  discount_amount : ℚ
  tax : ℚ
  line_items : List LineItem
  confidence_overall : ℚ
  math_validation : MathValidationResult
  review_status : ReviewStatus
  auto_approve : Bool
deriving Repr

/-- A flattened line item of the aggregate report (`ocr.py` lines
812-833).  The fresh random `uuid4` id attached to each item is not
modelled (it carries no information). -/
structure TaggedItem where
  base : LineItem
  source_invoice_id : String
  source_invoice_number : String
  vendor : String
  date : String
  confidence : ℚ
  math_valid : Bool
  calculated_amount : Option ℚ
deriving Repr

/-- Per-invoice entry of the report's `invoices` map (`ocr.py` lines
835-853). -/
structure InvoiceEntry where
  invoice_uid : String
  filename : String
  invoice_number : String
  vendor : String
  date : String
  total_amount : ℚ
  subtotal : ℚ
  shipping : ℚ
  discount_amount : ℚ
  tax : ℚ
  line_items : List LineItem
  confidence : ℚ
  math_validation : MathValidationResult
  review_status : ReviewStatus
  auto_approve : Bool
deriving Repr

/-- The aggregate `summary` (`ocr.py` lines 766-777).  `total_amount`
keeps the exact accumulated value (the final `f"{...:,.2f}"` display
string is formatting only); `vendors` models the Python `set`. -/
structure BatchSummary where
  total_amount : ℚ
  total_invoices_processed : ℕ
  vendors : Finset String
  processing_errors : List String
  auto_approved_count : ℕ
  needs_review_count : ℕ
  math_errors_count : ℕ
  average_confidence : ℚ

structure BatchReport where
  summary : BatchSummary
  line_items : List TaggedItem
  invoices : List (String × InvoiceEntry)

/-- Tag a successful document's line items with source/validation data
(`ocr.py` lines 812-833): the per-index validation entry supplies
confidence/validity when it exists, otherwise the document's overall
confidence is used. -/
def tagLineItems (r : SingleResult) : List TaggedItem :=
  r.line_items.enum.map (fun p =>
    match r.math_validation.line_items.get? p.1 with
    | some v =>
        { base := p.2, source_invoice_id := r.invoice_uid,
          source_invoice_number := r.invoice_number, vendor := r.vendor_name,
          date := r.date, confidence := v.confidence, math_valid := v.valid,
          calculated_amount := v.calculated_amount }
    | none =>
        { base := p.2, source_invoice_id := r.invoice_uid,
          source_invoice_number := r.invoice_number, vendor := r.vendor_name,
          date := r.date, confidence := r.confidence_overall, math_valid := true,
          calculated_amount := none })

def invoiceEntry (r : SingleResult) : InvoiceEntry :=
  { invoice_uid := r.invoice_uid, filename := r.filename,
    invoice_number := r.invoice_number, vendor := r.vendor_name, date := r.date,
    total_amount := r.total_amount, subtotal := r.subtotal, shipping := r.shipping,
    discount_amount := r.discount_amount, tax := r.tax, line_items := r.line_items,
    confidence := r.confidence_overall, math_validation := r.math_validation,
    review_status := r.review_status, auto_approve := r.auto_approve }

def initialReport : BatchReport :=
  { summary :=
      { total_amount := 0, total_invoices_processed := 0, vendors := ∅,
        processing_errors := [], auto_approved_count := 0, needs_review_count := 0,
        math_errors_count := 0, average_confidence := 0 },
    line_items := [], invoices := [] }

/-- One iteration of the aggregation loop (`ocr.py` lines 782-853): an
exception is recorded as a processing error; a successful result updates
every aggregate. -/
def aggregateStep (acc : BatchReport) : Except String SingleResult → BatchReport
  | .error msg =>
      { acc with summary :=
          { acc.summary with
              processing_errors := acc.summary.processing_errors ++ [msg] } }
  | .ok r =>
      { summary :=
          { acc.summary with
              total_invoices_processed := acc.summary.total_invoices_processed + 1,
              total_amount := acc.summary.total_amount + r.total_amount,
              vendors := insert r.vendor_name acc.summary.vendors,
              auto_approved_count :=
                if r.review_status = ReviewStatus.AUTO_APPROVED then
                  acc.summary.auto_approved_count + 1
                else acc.summary.auto_approved_count,
              needs_review_count :=
                if r.review_status = ReviewStatus.AUTO_APPROVED then
                  acc.summary.needs_review_count
                else acc.summary.needs_review_count + 1,
              math_errors_count :=
                if r.math_validation.overall_valid then acc.summary.math_errors_count
                else acc.summary.math_errors_count + 1 },
        line_items := acc.line_items ++ tagLineItems r,
        invoices := acc.invoices ++ [(r.invoice_uid, invoiceEntry r)] }

/-- Successful results, in order (the `asyncio.gather` call preserves
input order; the concurrency semaphore affects timing only). -/
def okList (rs : List (Except String SingleResult)) : List SingleResult :=
  rs.filterMap (fun r => match r with | .ok s => some s | .error _ => none)

/-- Error messages of failed results, in order. -/
def errList (rs : List (Except String SingleResult)) : List String :=
  rs.filterMap (fun r => match r with | .ok _ => none | .error m => some m)

def isErr : Except String SingleResult → Bool
  | .error _ => true
  | .ok _ => false

/-- The aggregation phase of `extract_invoice_data_batch` (`ocr.py`
lines 765-869): fold the per-document outcomes, then compute the average
confidence over successful documents. -/
def batchAggregate (rs : List (Except String SingleResult)) : BatchReport :=
  let folded := rs.foldl aggregateStep initialReport
  let tc := ((okList rs).map (fun r => r.confidence_overall)).sum
  if 0 < folded.summary.total_invoices_processed then
    { folded with summary :=
        { folded.summary with
            average_confidence :=
              round2 (tc / (folded.summary.total_invoices_processed : ℚ)) } }
  else
    { folded with summary := { folded.summary with average_confidence := 0 } }

structure HTTPError where
  status_code : ℕ
  detail : String
deriving DecidableEq, Repr

/-- Model of `extract_invoice_data_batch` (`ocr.py` lines 659-869): an empty file
list is rejected with HTTP 400 before any document is processed;
otherwise every file is processed (modelled by `process`, the outcome of
`_process_single_invoice`, which either returns a result or raises) and
the outcomes are aggregated. -/
def extract_invoice_data_batch {α : Type} (files : List α)
    (process : α → Except String SingleResult) : Except HTTPError BatchReport :=
  if files.isEmpty then Except.error { status_code := 400, detail := "No files provided." }
  else Except.ok (batchAggregate (files.map process))

example : pyFloat? "2".data = some 2 := by decide

/-! ## Helper lemmas -/

lemma tierConf_antitone {d1 d2 : ℚ} (h : d1 ≤ d2) : tierConf d2 ≤ tierConf d1 := by
  unfold tierConf
  split_ifs <;> linarith

/-- Unfolding of `validate_line_item` on a successfully parsed
quantity. -/
lemma validate_line_item_eq (it : LineItem) (q : ℚ)
    (h : qtyFloat it.quantity = some q) :
    validate_line_item it =
      { valid :=
          decide (|q * parse_currency (it.rate.getD "0") -
            parse_currency (it.amount.getD "0")| ≤ 1/100),
        quantity := some q,
        rate := some (parse_currency (it.rate.getD "0")),
        calculated_amount := some (round2 (q * parse_currency (it.rate.getD "0"))),
        stated_amount := some (parse_currency (it.amount.getD "0")),
        difference :=
          some (round2 |q * parse_currency (it.rate.getD "0") -
            parse_currency (it.amount.getD "0")|),
        confidence :=
          tierConf |q * parse_currency (it.rate.getD "0") -
            parse_currency (it.amount.getD "0")|,
        error := false } := by
  unfold validate_line_item
  rw [h]

lemma lineErrorsAux_mem {i : ℕ} {vs : List LineItemResult} {e : ValidationIssue}
    (h : e ∈ lineErrorsAux i vs) :
    (∃ j, e.field = IssueField.line_item j) ∧ e.severity = Severity.CRITICAL ∧
      e.action_required = some ActionRequired.VERIFY_WITH_PDF := by
  induction vs generalizing i with
  | nil => simp [lineErrorsAux] at h
  | cons v rest ih =>
      rw [lineErrorsAux] at h
      rcases List.mem_append.mp h with h' | h'
      · by_cases hv : v.valid = false
        · rw [if_pos hv] at h'
          rcases List.mem_singleton.mp h' with rfl
          exact ⟨⟨i, rfl⟩, rfl, rfl⟩
        · rw [if_neg hv] at h'
          simp at h'
      · exact ih h'

lemma lineErrorsAux_ne_nil {i : ℕ} {vs : List LineItemResult}
    (h : vs.all (fun v => v.valid) = false) : lineErrorsAux i vs ≠ [] := by
  induction vs generalizing i with
  | nil => simp at h
  | cons v rest ih =>
      rw [List.all_cons, Bool.and_eq_false_iff] at h
      rw [lineErrorsAux]
      rcases h with h | h
      · rw [if_pos h]
        simp
      · intro hc
        rcases List.append_eq_nil.mp hc with ⟨-, h2⟩
        exact ih h h2

/-- Every member of the `errors` list decomposes into a line-item error,
the subtotal error (when fired) or the total error (when fired). -/
lemma mem_errors_iff (inv : InvoiceData) (e : ValidationIssue) :
    e ∈ (validate_invoice_math inv).errors ↔
      e ∈ lineErrors (lineValidations inv) ∨
      (subtotalFail inv = true ∧ e = subtotalIssue inv) ∨
      (totalFail inv = true ∧ e = totalIssue inv) := by
  cases hs : subtotalFail inv <;> cases ht : totalFail inv <;>
    simp [validate_invoice_math, hs, ht, List.mem_append, or_assoc]

/-- All errors emitted by `validate_invoice_math` are CRITICAL. -/
lemma errors_critical {inv : InvoiceData} {e : ValidationIssue}
    (h : e ∈ (validate_invoice_math inv).errors) : e.severity = Severity.CRITICAL := by
  rcases (mem_errors_iff inv e).mp h with h' | ⟨-, rfl⟩ | ⟨-, rfl⟩
  · exact (lineErrorsAux_mem h').2.1
  · rfl
  · rfl

/-- When the overall validation fails, at least one error was emitted. -/
lemma errors_ne_nil_of_invalid {inv : InvoiceData}
    (h : (validate_invoice_math inv).overall_valid = false) :
    (validate_invoice_math inv).errors ≠ [] := by
  have hov : ((lineValidations inv).all (fun v => v.valid) && !subtotalFail inv &&
      !totalFail inv) = false := h
  cases ha : (lineValidations inv).all (fun v => v.valid)
  · have hm := lineErrorsAux_ne_nil (i := 0) ha
    rcases List.exists_mem_of_ne_nil _ hm with ⟨e, he⟩
    exact List.ne_nil_of_mem ((mem_errors_iff inv e).mpr (Or.inl he))
  · rw [ha] at hov
    cases hs : subtotalFail inv
    · rw [hs] at hov
      simp only [Bool.not_false, Bool.true_and, Bool.and_true, Bool.not_eq_false'] at hov
      exact List.ne_nil_of_mem
        ((mem_errors_iff inv (totalIssue inv)).mpr (Or.inr (Or.inr ⟨hov, rfl⟩)))
    · exact List.ne_nil_of_mem
        ((mem_errors_iff inv (subtotalIssue inv)).mpr (Or.inr (Or.inl ⟨hs, rfl⟩)))

/-- The map `round2` sends `[0, 1]` into `[0, 1]`. -/
lemma round2_mem_unit {q : ℚ} (h0 : 0 ≤ q) (h1 : q ≤ 1) :
    0 ≤ round2 q ∧ round2 q ≤ 1 := by
  have hlo : (0 : ℤ) ≤ round (q * 100) := by
    rw [round_eq]
    exact Int.floor_nonneg.mpr (by linarith)
  have hhi : round (q * 100) ≤ 100 := by
    rw [round_eq]
    have := Int.floor_lt.mpr (show q * 100 + 1/2 < ((101 : ℤ) : ℚ) by push_cast; linarith)
    omega
  constructor
  · exact div_nonneg (by exact_mod_cast hlo) (by norm_num)
  · rw [round2, div_le_one (by norm_num)]
    exact_mod_cast hhi

/-- Rounding via `round2` moves a value by at most half a cent. -/
lemma round2_abs_sub (q : ℚ) : |round2 q - q| ≤ 1/200 := by
  have h := abs_sub_round (q * 100)
  have heq : round2 q - q = ((round (q * 100) : ℚ) - q * 100) / 100 := by
    rw [round2]
    ring
  have h' : |(round (q * 100) : ℚ) - q * 100| ≤ 1/2 := by
    rw [abs_sub_comm]
    exact h
  rw [heq, abs_div, abs_of_pos (show (0:ℚ) < 100 by norm_num)]
  linarith

lemma fieldPresenceScore_mem (j : InvoiceJson) :
    0 ≤ fieldPresenceScore j ∧ fieldPresenceScore j ≤ 1 := by
  have hle : criticalPresent j ≤ 3 := List.countP_le_length _
  constructor
  · exact div_nonneg (by positivity) (by norm_num)
  · rw [fieldPresenceScore, div_le_one (by norm_num)]
    exact_mod_cast hle

lemma qualInvNum_bound (v : Option JVal) :
    0 ≤ (qualInvNum v).1 ∧ (qualInvNum v).1 ≤ ((qualInvNum v).2 : ℚ) := by
  rcases v with - | v
  · simp [qualInvNum]
  · rcases v with t | q | ne <;> simp only [qualInvNum] <;> split_ifs <;> norm_num

lemma qualDate_bound (v : Option JVal) :
    0 ≤ (qualDate v).1 ∧ (qualDate v).1 ≤ ((qualDate v).2 : ℚ) := by
  rcases v with - | v
  · simp [qualDate]
  · rcases v with t | q | ne <;> simp only [qualDate] <;> split_ifs <;> norm_num

lemma finQualStep_bound (acc : ℚ × ℕ) (v : Option JVal)
    (h0 : 0 ≤ acc.1) (h1 : acc.1 ≤ (acc.2 : ℚ)) :
    0 ≤ (finQualStep acc v).1 ∧ (finQualStep acc v).1 ≤ ((finQualStep acc v).2 : ℚ) := by
  rcases v with - | v
  · exact ⟨h0, h1⟩
  · rcases v with t | q | ne
    · rcases hp : pyFloat? t.data with - | q
      · simp only [finQualStep, hp]
        exact ⟨h0, h1⟩
      · simp only [finQualStep, hp]
        split_ifs <;> constructor <;> push_cast <;> linarith
    · simp only [finQualStep]
      split_ifs <;> constructor <;> push_cast <;> linarith
    · simp only [finQualStep]
      constructor <;> push_cast <;> linarith

lemma finQualStep_fold_bound (l : List (Option JVal)) :
    ∀ acc : ℚ × ℕ, 0 ≤ acc.1 → acc.1 ≤ (acc.2 : ℚ) →
      0 ≤ (l.foldl finQualStep acc).1 ∧
        (l.foldl finQualStep acc).1 ≤ ((l.foldl finQualStep acc).2 : ℚ) := by
  induction l with
  | nil => exact fun acc h0 h1 => ⟨h0, h1⟩
  | cons v rest ih =>
      intro acc h0 h1
      have h := finQualStep_bound acc v h0 h1
      exact ih _ h.1 h.2

lemma qualityCounts_bound (j : InvoiceJson) :
    0 ≤ (qualityCounts j).1 ∧ (qualityCounts j).1 ≤ ((qualityCounts j).2 : ℚ) := by
  have ha := qualInvNum_bound j.invoice_number
  have hb := qualDate_bound j.date
  refine finQualStep_fold_bound _ _ ?_ ?_
  · exact add_nonneg ha.1 hb.1
  · push_cast
    exact add_le_add ha.2 hb.2

lemma fieldQualityScore_mem (j : InvoiceJson) :
    0 ≤ fieldQualityScore j ∧ fieldQualityScore j ≤ 1 := by
  have h := qualityCounts_bound j
  rw [fieldQualityScore]
  split_ifs with hc
  · norm_num
  · have hpos : (0 : ℚ) < ((qualityCounts j).2 : ℚ) := by
      exact_mod_cast Nat.pos_of_ne_zero hc
    exact ⟨div_nonneg h.1 (le_of_lt hpos), (div_le_one hpos).mpr h.2⟩

lemma completenessScore_mem (j : InvoiceJson) :
    0 ≤ completenessScore j ∧ completenessScore j ≤ 1 := by
  have hle : (fieldsPresentList j).countP (fun b => b) ≤ 8 :=
    le_trans (List.countP_le_length _) (by rw [fieldsPresentList]; rfl)
  constructor
  · exact div_nonneg (by positivity) (by norm_num)
  · rw [completenessScore, div_le_one (by norm_num)]
    exact_mod_cast hle

lemma dataConsistencyScore_mem (j : InvoiceJson) :
    0 ≤ dataConsistencyScore j ∧ dataConsistencyScore j ≤ 1 := by
  rw [dataConsistencyScore]
  rcases j.line_items with - | items <;> dsimp only
  · norm_num
  · split_ifs with he
    · norm_num
    · have hpos : (0 : ℚ) < (items.length : ℚ) := by
        have : items ≠ [] := by
          simpa [List.isEmpty_iff] using he
        exact_mod_cast Nat.pos_of_ne_zero (by simpa [List.length_eq_zero] using this)
      constructor
      · exact div_nonneg (by positivity) (le_of_lt hpos)
      · rw [div_le_one hpos]
        exact_mod_cast List.countP_le_length _

/-! ### Aggregation fold lemmas -/

lemma okList_cons_ok (r : SingleResult) (rs : List (Except String SingleResult)) :
    okList (.ok r :: rs) = r :: okList rs := by
  simp [okList]

lemma okList_cons_err (m : String) (rs : List (Except String SingleResult)) :
    okList (.error m :: rs) = okList rs := by
  simp [okList]

lemma errList_cons_ok (r : SingleResult) (rs : List (Except String SingleResult)) :
    errList (.ok r :: rs) = errList rs := by
  simp [errList]

lemma errList_cons_err (m : String) (rs : List (Except String SingleResult)) :
    errList (.error m :: rs) = m :: errList rs := by
  simp [errList]

lemma foldl_step_processed (rs : List (Except String SingleResult)) :
    ∀ acc : BatchReport,
      (rs.foldl aggregateStep acc).summary.total_invoices_processed =
        acc.summary.total_invoices_processed + (okList rs).length := by
  induction rs with
  | nil => intro acc; simp [okList]
  | cons r t ih =>
      intro acc
      cases r with
      | ok s => rw [List.foldl_cons, ih, okList_cons_ok]; simp [aggregateStep]; omega
      | error m => rw [List.foldl_cons, ih, okList_cons_err]; simp [aggregateStep]

lemma foldl_step_errors (rs : List (Except String SingleResult)) :
    ∀ acc : BatchReport,
      (rs.foldl aggregateStep acc).summary.processing_errors =
        acc.summary.processing_errors ++ errList rs := by
  induction rs with
  | nil => intro acc; simp [errList]
  | cons r t ih =>
      intro acc
      cases r with
      | ok s => rw [List.foldl_cons, ih, errList_cons_ok]; simp [aggregateStep]
      | error m => rw [List.foldl_cons, ih, errList_cons_err]; simp [aggregateStep]

lemma foldl_step_line_items (rs : List (Except String SingleResult)) :
    ∀ acc : BatchReport,
      (rs.foldl aggregateStep acc).line_items =
        acc.line_items ++ (okList rs).flatMap tagLineItems := by
  induction rs with
  | nil => intro acc; simp [okList]
  | cons r t ih =>
      intro acc
      cases r with
      | ok s => rw [List.foldl_cons, ih, okList_cons_ok]; simp [aggregateStep]
      | error m => rw [List.foldl_cons, ih, okList_cons_err]; simp [aggregateStep]

lemma foldl_step_invoices (rs : List (Except String SingleResult)) :
    ∀ acc : BatchReport,
      (rs.foldl aggregateStep acc).invoices =
        acc.invoices ++ (okList rs).map (fun r => (r.invoice_uid, invoiceEntry r)) := by
  induction rs with
  | nil => intro acc; simp [okList]
  | cons r t ih =>
      intro acc
      cases r with
      | ok s => rw [List.foldl_cons, ih, okList_cons_ok]; simp [aggregateStep]
      | error m => rw [List.foldl_cons, ih, okList_cons_err]; simp [aggregateStep]

lemma foldl_step_auto (rs : List (Except String SingleResult)) :
    ∀ acc : BatchReport,
      (rs.foldl aggregateStep acc).summary.auto_approved_count =
        acc.summary.auto_approved_count +
          (okList rs).countP (fun r => decide (r.review_status = ReviewStatus.AUTO_APPROVED)) := by
  induction rs with
  | nil => intro acc; simp [okList]
  | cons r t ih =>
      intro acc
      cases r with
      | ok s =>
          rw [List.foldl_cons, ih, okList_cons_ok, List.countP_cons]
          by_cases hs : s.review_status = ReviewStatus.AUTO_APPROVED <;>
            simp [aggregateStep, hs] <;> omega
      | error m => rw [List.foldl_cons, ih, okList_cons_err]; simp [aggregateStep]

lemma foldl_step_needs (rs : List (Except String SingleResult)) :
    ∀ acc : BatchReport,
      (rs.foldl aggregateStep acc).summary.needs_review_count =
        acc.summary.needs_review_count +
          (okList rs).countP (fun r => !decide (r.review_status = ReviewStatus.AUTO_APPROVED)) := by
  induction rs with
  | nil => intro acc; simp [okList]
  | cons r t ih =>
      intro acc
      cases r with
      | ok s =>
          rw [List.foldl_cons, ih, okList_cons_ok, List.countP_cons]
          by_cases hs : s.review_status = ReviewStatus.AUTO_APPROVED <;>
            simp [aggregateStep, hs] <;> omega
      | error m => rw [List.foldl_cons, ih, okList_cons_err]; simp [aggregateStep]

lemma foldl_step_math_errors (rs : List (Except String SingleResult)) :
    ∀ acc : BatchReport,
      (rs.foldl aggregateStep acc).summary.math_errors_count =
        acc.summary.math_errors_count +
          (okList rs).countP (fun r => !r.math_validation.overall_valid) := by
  induction rs with
  | nil => intro acc; simp [okList]
  | cons r t ih =>
      intro acc
      cases r with
      | ok s =>
          rw [List.foldl_cons, ih, okList_cons_ok, List.countP_cons]
          cases hs : s.math_validation.overall_valid <;>
            simp [aggregateStep, hs] <;> omega
      | error m => rw [List.foldl_cons, ih, okList_cons_err]; simp [aggregateStep]

lemma foldl_step_total_amount (rs : List (Except String SingleResult)) :
    ∀ acc : BatchReport,
      (rs.foldl aggregateStep acc).summary.total_amount =
        acc.summary.total_amount + ((okList rs).map (fun r => r.total_amount)).sum := by
  induction rs with
  | nil => intro acc; simp [okList]
  | cons r t ih =>
      intro acc
      cases r with
      | ok s =>
          rw [List.foldl_cons, ih, okList_cons_ok]
          simp [aggregateStep]
          ring
      | error m => rw [List.foldl_cons, ih, okList_cons_err]; simp [aggregateStep]

/-- The wrapper `batchAggregate` only adjusts `average_confidence` after the fold. -/
lemma batchAggregate_fields (rs : List (Except String SingleResult)) :
    (batchAggregate rs).summary.total_invoices_processed =
        (rs.foldl aggregateStep initialReport).summary.total_invoices_processed ∧
      (batchAggregate rs).summary.processing_errors =
        (rs.foldl aggregateStep initialReport).summary.processing_errors ∧
      (batchAggregate rs).line_items = (rs.foldl aggregateStep initialReport).line_items ∧
      (batchAggregate rs).invoices = (rs.foldl aggregateStep initialReport).invoices ∧
      (batchAggregate rs).summary.auto_approved_count =
        (rs.foldl aggregateStep initialReport).summary.auto_approved_count ∧
      (batchAggregate rs).summary.needs_review_count =
        (rs.foldl aggregateStep initialReport).summary.needs_review_count ∧
      (batchAggregate rs).summary.math_errors_count =
        (rs.foldl aggregateStep initialReport).summary.math_errors_count ∧
      (batchAggregate rs).summary.total_amount =
        (rs.foldl aggregateStep initialReport).summary.total_amount := by
  rw [batchAggregate]
  split_ifs <;> exact ⟨rfl, rfl, rfl, rfl, rfl, rfl, rfl, rfl⟩

lemma length_okList_add_errList (rs : List (Except String SingleResult)) :
    (okList rs).length + (errList rs).length = rs.length := by
  induction rs with
  | nil => simp [okList, errList]
  | cons r t ih =>
      cases r with
      | ok s => rw [okList_cons_ok, errList_cons_ok]; simp; omega
      | error m => rw [okList_cons_err, errList_cons_err]; simp; omega

lemma errList_length_eq_countP (rs : List (Except String SingleResult)) :
    (errList rs).length = rs.countP isErr := by
  induction rs with
  | nil => simp [errList]
  | cons r t ih =>
      cases r with
      | ok s => rw [errList_cons_ok, List.countP_cons]; simp [isErr, ih]
      | error m => rw [errList_cons_err, List.countP_cons]; simp [isErr, ih]

/-! ### Solo-run contribution lemmas -/

lemma solo_line_items (r : SingleResult) :
    (batchAggregate [Except.ok r]).line_items = tagLineItems r := by
  simp [batchAggregate, aggregateStep, initialReport, okList]

lemma solo_invoices (r : SingleResult) :
    (batchAggregate [Except.ok r]).invoices = [(r.invoice_uid, invoiceEntry r)] := by
  simp [batchAggregate, aggregateStep, initialReport, okList]

lemma solo_auto (r : SingleResult) :
    (batchAggregate [Except.ok r]).summary.auto_approved_count =
      if r.review_status = ReviewStatus.AUTO_APPROVED then 1 else 0 := by
  by_cases hs : r.review_status = ReviewStatus.AUTO_APPROVED <;>
    simp [batchAggregate, aggregateStep, initialReport, okList, hs]

lemma solo_needs (r : SingleResult) :
    (batchAggregate [Except.ok r]).summary.needs_review_count =
      if r.review_status = ReviewStatus.AUTO_APPROVED then 0 else 1 := by
  by_cases hs : r.review_status = ReviewStatus.AUTO_APPROVED <;>
    simp [batchAggregate, aggregateStep, initialReport, okList, hs]

lemma solo_math_errors (r : SingleResult) :
    (batchAggregate [Except.ok r]).summary.math_errors_count =
      if r.math_validation.overall_valid then 0 else 1 := by
  cases hs : r.math_validation.overall_valid <;>
    simp [batchAggregate, aggregateStep, initialReport, okList, hs]

lemma solo_total_amount (r : SingleResult) :
    (batchAggregate [Except.ok r]).summary.total_amount = r.total_amount := by
  simp [batchAggregate, aggregateStep, initialReport, okList]

lemma countP_add_countP_not {β : Type} (l : List β) (p : β → Bool) :
    l.countP p + l.countP (fun x => !p x) = l.length := by
  induction l with
  | nil => simp
  | cons x t ih =>
      rw [List.countP_cons, List.countP_cons]
      cases hx : p x <;> simp [hx] <;> omega

lemma sum_map_ite_eq_countP {β : Type} (l : List β) (p : β → Prop) [DecidablePred p] :
    (l.map (fun x => if p x then 1 else 0)).sum = l.countP (fun x => decide (p x)) := by
  induction l with
  | nil => simp
  | cons x t ih =>
      rw [List.map_cons, List.sum_cons, List.countP_cons, ih]
      by_cases hx : p x <;> simp [hx] <;> omega

lemma sum_map_ite_eq_countP_not {β : Type} (l : List β) (p : β → Prop) [DecidablePred p] :
    (l.map (fun x => if p x then 0 else 1)).sum = l.countP (fun x => !decide (p x)) := by
  induction l with
  | nil => simp
  | cons x t ih =>
      rw [List.map_cons, List.sum_cons, List.countP_cons, ih]
      by_cases hx : p x <;> simp [hx] <;> omega

/-! ## Claim theorems -/

/-- C1: whenever the math validation result has `overall_valid = false`,
`determine_review_status` returns REQUIRES_REVIEW with reason
MATH_VALIDATION_FAILED, severity CRITICAL and `auto_approve = false`,
for every confidence value (including 1) and every value of
`has_critical_fields`. -/
theorem determine_review_math_gate (confidence : ℚ) (vr : MathValidationResult)
    (hcf : Bool) (h : vr.overall_valid = false) :
    determine_review_status confidence vr hcf =
      { status := .REQUIRES_REVIEW, reason := .MATH_VALIDATION_FAILED,
        severity := .CRITICAL, auto_approve := false,
        message := "Mathematical discrepancies detected. Manual verification required." } := by
  simp [determine_review_status, h]

/-- Witness for C1: the math gate fires at confidence 1 on a concrete
invoice whose single line item fails validation. -/
theorem determine_review_math_gate_witness :
    determine_review_status 1 (validate_invoice_math oneBadInvoice) true =
      { status := .REQUIRES_REVIEW, reason := .MATH_VALIDATION_FAILED,
        severity := .CRITICAL, auto_approve := false,
        message := "Mathematical discrepancies detected. Manual verification required." } :=
  determine_review_math_gate 1 (validate_invoice_math oneBadInvoice) true (by decide)

/-- C4: with valid math and all critical fields present, the decision is
AUTO_APPROVED (reason HIGH_CONFIDENCE_AND_VALIDATED, severity NONE,
auto-approved) for confidence ≥ 0.95, APPROVED_WITH_VERIFICATION
(reason MATH_VALIDATED_MEDIUM_CONFIDENCE, severity LOW, auto-approved)
for confidence in [0.85, 0.95), and REQUIRES_REVIEW (reason
BELOW_CONFIDENCE_THRESHOLD, severity MEDIUM, not auto-approved) for
confidence < 0.85. -/
theorem review_confidence_thresholds (confidence : ℚ) (vr : MathValidationResult)
    (h : vr.overall_valid = true) :
    (95/100 ≤ confidence →
      determine_review_status confidence vr true =
        { status := .AUTO_APPROVED, reason := .HIGH_CONFIDENCE_AND_VALIDATED,
          severity := .NONE, auto_approve := true,
          message := "All validations passed. Approved automatically." }) ∧
    (85/100 ≤ confidence → confidence < 95/100 →
      determine_review_status confidence vr true =
        { status := .APPROVED_WITH_VERIFICATION,
          reason := .MATH_VALIDATED_MEDIUM_CONFIDENCE, severity := .LOW,
          auto_approve := true,
          message := "Math validated but some fields have medium confidence. Review recommended but not required." }) ∧
    (confidence < 85/100 →
      determine_review_status confidence vr true =
        { status := .REQUIRES_REVIEW, reason := .BELOW_CONFIDENCE_THRESHOLD,
          severity := .MEDIUM, auto_approve := false,
          message := "Confidence below threshold. Manual review required." }) := by
  have hv : ¬(vr.overall_valid = false) := by simp [h]
  have hb : ¬(true = false) := by decide
  refine ⟨fun h1 => ?_, fun h1 h2 => ?_, fun h1 => ?_⟩
  · rw [determine_review_status, if_neg hv, if_neg hb, if_pos h1]
  · rw [determine_review_status, if_neg hv, if_neg hb, if_neg (not_le.mpr h2), if_pos h1]
  · rw [determine_review_status, if_neg hv, if_neg hb,
      if_neg (not_le.mpr (lt_trans h1 (by norm_num))), if_neg (not_le.mpr h1)]

/-- Witness for C4: the high-confidence branch at confidence 1 on a
concrete fully-valid invoice. -/
theorem review_confidence_thresholds_witness :
    determine_review_status 1 (validate_invoice_math emptyInvoice) true =
      { status := .AUTO_APPROVED, reason := .HIGH_CONFIDENCE_AND_VALIDATED,
        severity := .NONE, auto_approve := true,
        message := "All validations passed. Approved automatically." } :=
  (review_confidence_thresholds 1 (validate_invoice_math emptyInvoice) (by decide)).1
    (by norm_num)

/-- C3: for a line item whose quantity parses, `validate_line_item`
returns `valid = true` with confidence 0.99 exactly when the absolute
difference between quantity × rate and the stated amount is at most one
cent; beyond that it is invalid with confidence 0.90 below a dime, 0.70
below a dollar, and 0.30 otherwise. -/
theorem line_item_confidence_tiers (it : LineItem) (q : ℚ)
    (h : qtyFloat it.quantity = some q) :
    ((validate_line_item it).valid = true ∧ (validate_line_item it).confidence = 99/100 ↔
      |q * parse_currency (it.rate.getD "0") - parse_currency (it.amount.getD "0")| ≤ 1/100) ∧
    (1/100 < |q * parse_currency (it.rate.getD "0") - parse_currency (it.amount.getD "0")| →
      (validate_line_item it).valid = false ∧
      (|q * parse_currency (it.rate.getD "0") - parse_currency (it.amount.getD "0")| < 1/10 →
        (validate_line_item it).confidence = 9/10) ∧
      (1/10 ≤ |q * parse_currency (it.rate.getD "0") - parse_currency (it.amount.getD "0")| →
        |q * parse_currency (it.rate.getD "0") - parse_currency (it.amount.getD "0")| < 1 →
        (validate_line_item it).confidence = 7/10) ∧
      (1 ≤ |q * parse_currency (it.rate.getD "0") - parse_currency (it.amount.getD "0")| →
        (validate_line_item it).confidence = 3/10)) := by
  simp only [validate_line_item_eq it q h]
  constructor
  · constructor
    · rintro ⟨h1, -⟩
      exact of_decide_eq_true h1
    · intro h1
      exact ⟨decide_eq_true h1, by rw [tierConf, if_pos h1]⟩
  · intro h1
    refine ⟨decide_eq_false (not_le.mpr h1), fun h2 => ?_, fun h2 h3 => ?_, fun h2 => ?_⟩
    · rw [tierConf, if_neg (not_le.mpr h1), if_pos h2]
    · rw [tierConf, if_neg (not_le.mpr h1), if_neg (not_lt.mpr h2), if_pos h3]
    · rw [tierConf, if_neg (not_le.mpr h1), if_neg (by linarith), if_neg (not_lt.mpr h2)]

/-- Witness for C3: a concrete exact line item (2 × 3 = 6) is valid with
confidence 0.99. -/
theorem line_item_confidence_tiers_witness :
    (validate_line_item { item := none, quantity := some "2", rate := some "3",
                          amount := some "6" }).valid = true ∧
    (validate_line_item { item := none, quantity := some "2", rate := some "3",
                          amount := some "6" }).confidence = 99/100 :=
  (line_item_confidence_tiers
      { item := none, quantity := some "2", rate := some "3", amount := some "6" } 2
      (by decide)).1.mpr (by decide)

/-- C6: for two line items that both parse, a smaller-or-equal
arithmetic difference never yields a smaller confidence: the confidence
of `validate_line_item` is a non-increasing function of the
difference. -/
theorem line_item_confidence_antitone (it1 it2 : LineItem) (q1 q2 : ℚ)
    (h1 : qtyFloat it1.quantity = some q1) (h2 : qtyFloat it2.quantity = some q2)
    (hd : |q1 * parse_currency (it1.rate.getD "0") - parse_currency (it1.amount.getD "0")| ≤
      |q2 * parse_currency (it2.rate.getD "0") - parse_currency (it2.amount.getD "0")|) :
    (validate_line_item it2).confidence ≤ (validate_line_item it1).confidence := by
  simp only [validate_line_item, h1, h2]
  exact tierConf_antitone hd

/-- Witness for C6: a concrete pair, difference 0 versus difference 3. -/
theorem line_item_confidence_antitone_witness :
    (validate_line_item badItem).confidence ≤ (validate_line_item goodItem).confidence :=
  line_item_confidence_antitone goodItem badItem 1 1 (by decide) (by decide) (by decide)

/-- C5: the four specified test vectors of `parse_currency`
(US-formatted with symbol and thousands separator, parenthesized
negative, empty string, European separators), and totality on
unparseable input: whenever the normalized text fails the float
conversion the function returns 0 instead of raising (the Lean model is
a total function, mirroring the `try/except` that absorbs the
`ValueError`). -/
theorem parse_currency_contract :
    parse_currency "$1,234.56" = 123456/100 ∧
    parse_currency "(123.45)" = -(12345/100) ∧
    parse_currency "" = 0 ∧
    parse_currency "1.234,56" = 123456/100 ∧
    (∀ s : String, pyFloat? (currencyNormalized s) = none → parse_currency s = 0) := by
  refine ⟨by decide, by decide, by decide, by decide, fun s h => ?_⟩
  by_cases he : s.data.isEmpty <;> simp [parse_currency, he, h]

/-- Witness for C5: an unparseable input returns 0. -/
theorem parse_currency_contract_witness : parse_currency "abc" = 0 :=
  parse_currency_contract.2.2.2.2 "abc" (by decide)

/-- Counterexample to C2 as stated: on a concrete invoice whose line
items sum to 1.02 against a stated subtotal of 1.01 the difference is
exactly one cent — within the claimed inclusive tolerance — yet
`subtotal_valid` is false and the CRITICAL subtotal error is emitted:
the code tests `subtotal_difference >= 0.01`, not `> 0.01`, and at this
input the IEEE evaluation agrees with the exact model (the computed
float difference, about 0.010000000000000009, is above the 0.01
double), so the running program flags it too. -/
theorem subtotal_tolerance_claim_false :
    |lineItemSum (lineValidations oneCentSubInvoice) - statedSubtotal oneCentSubInvoice| ≤
      1/100 ∧
    (validate_invoice_math oneCentSubInvoice).subtotal_valid = false ∧
    ∃ e ∈ (validate_invoice_math oneCentSubInvoice).errors,
      e.field = IssueField.subtotal := by
  refine ⟨by decide, by decide, ?_⟩
  exact ⟨subtotalIssue oneCentSubInvoice, by decide, rfl⟩

/-- C2 (amended): when a stated subtotal > 0 is present, the subtotal is
valid exactly when the computed difference is strictly below one cent,
and the CRITICAL error with action VERIFY_WITH_PDF and the rounded delta
is emitted exactly when the computed difference is at least one cent:
the subtotal tolerance is strict (`>= 0.01` fires the error), unlike the
inclusive line-item tolerance, so a decimal difference of exactly one
cent can be flagged, as in the counterexample. -/
theorem subtotal_tolerance_strict (inv : InvoiceData)
    (h : 0 < statedSubtotal inv) :
    ((validate_invoice_math inv).subtotal_valid = true ↔
      |lineItemSum (lineValidations inv) - statedSubtotal inv| < 1/100) ∧
    ((∃ e ∈ (validate_invoice_math inv).errors, e.field = IssueField.subtotal) ↔
      1/100 ≤ |lineItemSum (lineValidations inv) - statedSubtotal inv|) ∧
    (∀ e ∈ (validate_invoice_math inv).errors, e.field = IssueField.subtotal →
      e.severity = Severity.CRITICAL ∧
      e.action_required = some ActionRequired.VERIFY_WITH_PDF ∧
      e.difference =
        some (round2 |lineItemSum (lineValidations inv) - statedSubtotal inv|)) := by
  have hfail : subtotalFail inv = true ↔
      1/100 ≤ |lineItemSum (lineValidations inv) - statedSubtotal inv| := by
    simp [subtotalFail, h]
  refine ⟨?_, ?_, ?_⟩
  · show (!subtotalFail inv) = true ↔ _
    rw [Bool.not_eq_true']
    rw [← Bool.not_eq_true, hfail, not_le]
  · constructor
    · rintro ⟨e, he, hf⟩
      rcases (mem_errors_iff inv e).mp he with h' | ⟨hs, rfl⟩ | ⟨-, rfl⟩
      · rcases (lineErrorsAux_mem h').1 with ⟨j, hj⟩
        rw [hf] at hj
        exact absurd hj (by simp)
      · exact hfail.mp hs
      · exact absurd hf (by simp [totalIssue])
    · intro h1
      exact ⟨subtotalIssue inv,
        (mem_errors_iff inv _).mpr (Or.inr (Or.inl ⟨hfail.mpr h1, rfl⟩)), rfl⟩
  · intro e he hf
    rcases (mem_errors_iff inv e).mp he with h' | ⟨-, rfl⟩ | ⟨-, rfl⟩
    · rcases (lineErrorsAux_mem h').1 with ⟨j, hj⟩
      rw [hf] at hj
      exact absurd hj (by simp)
    · exact ⟨rfl, rfl, rfl⟩
    · exact absurd hf (by simp [totalIssue])

/-- C10: in the batch aggregation every successfully processed document
increments exactly one of `auto_approved_count` (review status
AUTO_APPROVED) or `needs_review_count` (any other status, including
APPROVED_WITH_VERIFICATION), and the two counters partition the
processed documents: their sum equals `total_invoices_processed`. -/
theorem batch_counts_partition (rs : List (Except String SingleResult)) :
    (batchAggregate rs).summary.auto_approved_count +
        (batchAggregate rs).summary.needs_review_count =
      (batchAggregate rs).summary.total_invoices_processed ∧
    (batchAggregate rs).summary.auto_approved_count =
      (okList rs).countP (fun r => decide (r.review_status = ReviewStatus.AUTO_APPROVED)) ∧
    (batchAggregate rs).summary.needs_review_count =
      (okList rs).countP (fun r => !decide (r.review_status = ReviewStatus.AUTO_APPROVED)) := by
  obtain ⟨hp, -, -, -, ha, hn, -, -⟩ := batchAggregate_fields rs
  refine ⟨?_, ?_, ?_⟩
  · rw [hp, ha, hn, foldl_step_processed, foldl_step_auto, foldl_step_needs]
    simp only [initialReport, Nat.zero_add]
    exact countP_add_countP_not _ _
  · rw [ha, foldl_step_auto]
    simp [initialReport]
  · rw [hn, foldl_step_needs]
    simp [initialReport]

/-- C8: a per-document failure in the batch endpoint is isolated — with
exactly one failing document among N, the report counts N−1 processed
invoices and one processing error, and every successful document
contributes exactly the per-invoice entry, counter increments and tagged
line items it would produce if it were the only document of the batch;
an empty file list is rejected with HTTP 400 before any processing. -/
theorem batch_failure_isolation :
    (∀ (α : Type) (files : List α) (process : α → Except String SingleResult),
      (files.map process).countP isErr = 1 →
      ∃ rep : BatchReport, extract_invoice_data_batch files process = Except.ok rep ∧
        rep.summary.total_invoices_processed + 1 = files.length ∧
        rep.summary.processing_errors.length = 1 ∧
        rep.line_items =
          (okList (files.map process)).flatMap
            (fun r => (batchAggregate [Except.ok r]).line_items) ∧
        rep.invoices =
          (okList (files.map process)).flatMap
            (fun r => (batchAggregate [Except.ok r]).invoices) ∧
        rep.summary.auto_approved_count =
          ((okList (files.map process)).map
            (fun r => (batchAggregate [Except.ok r]).summary.auto_approved_count)).sum ∧
        rep.summary.needs_review_count =
          ((okList (files.map process)).map
            (fun r => (batchAggregate [Except.ok r]).summary.needs_review_count)).sum ∧
        rep.summary.math_errors_count =
          ((okList (files.map process)).map
            (fun r => (batchAggregate [Except.ok r]).summary.math_errors_count)).sum ∧
        rep.summary.total_amount =
          ((okList (files.map process)).map
            (fun r => (batchAggregate [Except.ok r]).summary.total_amount)).sum) ∧
    (∀ (α : Type) (process : α → Except String SingleResult),
      extract_invoice_data_batch ([] : List α) process =
        Except.error { status_code := 400, detail := "No files provided." }) := by
  constructor
  · intro α files process hcount
    have hne : ¬files.isEmpty := by
      intro he
      rw [List.isEmpty_iff.mp he] at hcount
      simp at hcount
    refine ⟨batchAggregate (files.map process), ?_, ?_, ?_, ?_, ?_, ?_, ?_, ?_, ?_⟩
    · rw [extract_invoice_data_batch, if_neg hne]
    · obtain ⟨hp, -, -, -, -, -, -, -⟩ := batchAggregate_fields (files.map process)
      rw [hp, foldl_step_processed]
      simp only [initialReport, Nat.zero_add]
      have hlen := length_okList_add_errList (files.map process)
      rw [errList_length_eq_countP, hcount, List.length_map] at hlen
      exact hlen
    · obtain ⟨-, he, -, -, -, -, -, -⟩ := batchAggregate_fields (files.map process)
      rw [he, foldl_step_errors]
      simp only [initialReport, List.nil_append]
      rw [errList_length_eq_countP, hcount]
    · obtain ⟨-, -, hl, -, -, -, -, -⟩ := batchAggregate_fields (files.map process)
      rw [hl, foldl_step_line_items]
      simp only [initialReport, List.nil_append]
      congr 1
    · obtain ⟨-, -, -, hi, -, -, -, -⟩ := batchAggregate_fields (files.map process)
      rw [hi, foldl_step_invoices]
      simp only [initialReport, List.nil_append]
      rw [List.map_eq_flatMap]
      congr 1
    · obtain ⟨-, -, -, -, ha, -, -, -⟩ := batchAggregate_fields (files.map process)
      rw [ha, foldl_step_auto]
      simp only [initialReport, Nat.zero_add]
      rw [show (fun r => (batchAggregate [Except.ok r]).summary.auto_approved_count) =
          (fun r : SingleResult =>
            if r.review_status = ReviewStatus.AUTO_APPROVED then 1 else 0) from
          funext solo_auto]
      rw [sum_map_ite_eq_countP]
    · obtain ⟨-, -, -, -, -, hn, -, -⟩ := batchAggregate_fields (files.map process)
      rw [hn, foldl_step_needs]
      simp only [initialReport, Nat.zero_add]
      rw [show (fun r => (batchAggregate [Except.ok r]).summary.needs_review_count) =
          (fun r : SingleResult =>
            if r.review_status = ReviewStatus.AUTO_APPROVED then 0 else 1) from
          funext solo_needs]
      rw [sum_map_ite_eq_countP_not]
    · obtain ⟨-, -, -, -, -, -, hm, -⟩ := batchAggregate_fields (files.map process)
      rw [hm, foldl_step_math_errors]
      simp only [initialReport, Nat.zero_add]
      rw [show (fun r => (batchAggregate [Except.ok r]).summary.math_errors_count) =
          (fun r : SingleResult =>
            if r.math_validation.overall_valid = true then 0 else 1) from
          funext (fun r => by rw [solo_math_errors])]
      rw [sum_map_ite_eq_countP_not]
      congr 1
      funext r
      cases hr : r.math_validation.overall_valid <;> simp [hr]
    · obtain ⟨-, -, -, -, -, -, -, ht⟩ := batchAggregate_fields (files.map process)
      rw [ht, foldl_step_total_amount]
      simp only [initialReport, zero_add]
      rw [show (fun r => (batchAggregate [Except.ok r]).summary.total_amount) =
          (fun r : SingleResult => r.total_amount) from funext solo_total_amount]
  · intro α process
    rfl

/-- Witness for C8: a concrete two-file batch where processing the first
file raises: the report counts one processed invoice and one error and
matches the solo-run contribution of the surviving document. -/
theorem batch_failure_isolation_witness :
    ∃ rep : BatchReport,
      extract_invoice_data_batch ["bad", "good"]
          (fun s =>
            if s = "bad" then Except.error "Failed to process bad"
            else Except.ok
              { invoice_uid := "uid-1", filename := "good", invoice_number := "INV-7",
                vendor_name := "Acme", date := "2024-02-02", total_amount := 10,
                subtotal := 10, shipping := 0, discount_amount := 0, tax := 0,
                line_items := [goodItem], confidence_overall := 1,
                math_validation := validate_invoice_math emptyInvoice,
                review_status := ReviewStatus.AUTO_APPROVED, auto_approve := true }) =
        Except.ok rep ∧
      rep.summary.total_invoices_processed + 1 = (["bad", "good"] : List String).length ∧
      rep.summary.processing_errors.length = 1 ∧
      rep.line_items =
        (okList ((["bad", "good"] : List String).map
          (fun s =>
            if s = "bad" then Except.error "Failed to process bad"
            else Except.ok
              { invoice_uid := "uid-1", filename := "good", invoice_number := "INV-7",
                vendor_name := "Acme", date := "2024-02-02", total_amount := 10,
                subtotal := 10, shipping := 0, discount_amount := 0, tax := 0,
                line_items := [goodItem], confidence_overall := 1,
                math_validation := validate_invoice_math emptyInvoice,
                review_status := ReviewStatus.AUTO_APPROVED, auto_approve := true }))).flatMap
          (fun r => (batchAggregate [Except.ok r]).line_items) ∧
      rep.invoices =
        (okList ((["bad", "good"] : List String).map
          (fun s =>
            if s = "bad" then Except.error "Failed to process bad"
            else Except.ok
              { invoice_uid := "uid-1", filename := "good", invoice_number := "INV-7",
                vendor_name := "Acme", date := "2024-02-02", total_amount := 10,
                subtotal := 10, shipping := 0, discount_amount := 0, tax := 0,
                line_items := [goodItem], confidence_overall := 1,
                math_validation := validate_invoice_math emptyInvoice,
                review_status := ReviewStatus.AUTO_APPROVED, auto_approve := true }))).flatMap
          (fun r => (batchAggregate [Except.ok r]).invoices) := by
  obtain ⟨rep, h1, h2, h3, h4, h5, -⟩ :=
    batch_failure_isolation.1 String ["bad", "good"]
      (fun s =>
        if s = "bad" then Except.error "Failed to process bad"
        else Except.ok
          { invoice_uid := "uid-1", filename := "good", invoice_number := "INV-7",
            vendor_name := "Acme", date := "2024-02-02", total_amount := 10,
            subtotal := 10, shipping := 0, discount_amount := 0, tax := 0,
            line_items := [goodItem], confidence_overall := 1,
            math_validation := validate_invoice_math emptyInvoice,
            review_status := ReviewStatus.AUTO_APPROVED, auto_approve := true })
      (by decide)
  exact ⟨rep, h1, h2, h3, h4, h5⟩

/-- Witness for C2 (amended): the concrete one-cent invoice fires the
subtotal error. -/
theorem subtotal_tolerance_strict_witness :
    ∃ e ∈ (validate_invoice_math oneCentSubInvoice).errors,
      e.field = IssueField.subtotal :=
  (subtotal_tolerance_strict oneCentSubInvoice (by decide)).2.1.mpr (by decide)

/-- C9: every invalid math-validation result contains a CRITICAL error,
hence `calculate_validation_confidence` never returns the
valid-with-only-warnings value 0.95 on an output of
`validate_invoice_math`, and its range is exactly the four values
1, 0.60, 0.40 and 0.20 (each attained by a concrete invoice). -/
theorem validation_confidence_range :
    (∀ inv : InvoiceData,
      ((validate_invoice_math inv).overall_valid = false →
        ∃ e ∈ (validate_invoice_math inv).errors, e.severity = Severity.CRITICAL) ∧
      calculate_validation_confidence (validate_invoice_math inv) ≠ 95/100 ∧
      (calculate_validation_confidence (validate_invoice_math inv) = 1 ∨
       calculate_validation_confidence (validate_invoice_math inv) = 6/10 ∨
       calculate_validation_confidence (validate_invoice_math inv) = 4/10 ∨
       calculate_validation_confidence (validate_invoice_math inv) = 2/10)) ∧
    calculate_validation_confidence (validate_invoice_math emptyInvoice) = 1 ∧
    calculate_validation_confidence (validate_invoice_math oneBadInvoice) = 6/10 ∧
    calculate_validation_confidence (validate_invoice_math twoBadInvoice) = 4/10 ∧
    calculate_validation_confidence (validate_invoice_math threeBadInvoice) = 2/10 := by
  refine ⟨fun inv => ?_, by decide, by decide, by decide, by decide⟩
  have hex : (validate_invoice_math inv).overall_valid = false →
      ∃ e ∈ (validate_invoice_math inv).errors, e.severity = Severity.CRITICAL := by
    intro h
    rcases List.exists_mem_of_ne_nil _ (errors_ne_nil_of_invalid h) with ⟨e, he⟩
    exact ⟨e, he, errors_critical he⟩
  have hmem : calculate_validation_confidence (validate_invoice_math inv) = 1 ∨
      calculate_validation_confidence (validate_invoice_math inv) = 6/10 ∨
      calculate_validation_confidence (validate_invoice_math inv) = 4/10 ∨
      calculate_validation_confidence (validate_invoice_math inv) = 2/10 := by
    rw [calculate_validation_confidence]
    cases hov : (validate_invoice_math inv).overall_valid
    · rw [if_neg (by simp)]
      have hfe : ((validate_invoice_math inv).errors.filter
          (fun e => e.severity = Severity.CRITICAL)) = (validate_invoice_math inv).errors :=
        List.filter_eq_self.mpr (fun e he => by
          simp [errors_critical he])
      have hL : ((validate_invoice_math inv).errors.filter
          (fun e => e.severity = Severity.CRITICAL)).length ≠ 0 := by
        rw [hfe]
        simp only [ne_eq, List.length_eq_zero]
        exact errors_ne_nil_of_invalid hov
      dsimp only
      split_ifs with h0 h1 h2
      · exact absurd h0 hL
      · exact Or.inr (Or.inl rfl)
      · exact Or.inr (Or.inr (Or.inl rfl))
      · exact Or.inr (Or.inr (Or.inr rfl))
    · rw [if_pos rfl]
      exact Or.inl rfl
  refine ⟨hex, ?_, hmem⟩
  rcases hmem with h | h | h | h <;> rw [h] <;> norm_num

/-- C7: for every input document the four sub-scores returned by
`calculate_extraction_confidence` lie in [0, 1] (as do the
underlying unrounded scores), and the overall confidence is the fixed
weighted sum 0.30·presence + 0.25·quality + 0.20·completeness +
0.25·consistency of the sub-scores, up to the 2-decimal rounding applied
to the output (hence within half a cent of the exact weighted sum). -/
theorem extraction_confidence_weighted_sum (j : InvoiceJson) :
    (0 ≤ (calculate_extraction_confidence j).field_presence_score ∧
      (calculate_extraction_confidence j).field_presence_score ≤ 1) ∧
    (0 ≤ (calculate_extraction_confidence j).field_quality_score ∧
      (calculate_extraction_confidence j).field_quality_score ≤ 1) ∧
    (0 ≤ (calculate_extraction_confidence j).completeness_score ∧
      (calculate_extraction_confidence j).completeness_score ≤ 1) ∧
    (0 ≤ (calculate_extraction_confidence j).data_consistency_score ∧
      (calculate_extraction_confidence j).data_consistency_score ≤ 1) ∧
    (0 ≤ (calculate_extraction_confidence j).overall_confidence ∧
      (calculate_extraction_confidence j).overall_confidence ≤ 1) ∧
    (calculate_extraction_confidence j).overall_confidence =
      round2 ((calculate_extraction_confidence j).scores.field_presence * (30/100) +
        (calculate_extraction_confidence j).scores.field_quality * (25/100) +
        (calculate_extraction_confidence j).scores.completeness * (20/100) +
        (calculate_extraction_confidence j).scores.data_consistency * (25/100)) ∧
    |(calculate_extraction_confidence j).overall_confidence -
        ((calculate_extraction_confidence j).scores.field_presence * (30/100) +
          (calculate_extraction_confidence j).scores.field_quality * (25/100) +
          (calculate_extraction_confidence j).scores.completeness * (20/100) +
          (calculate_extraction_confidence j).scores.data_consistency * (25/100))| ≤
      1/200 := by
  have hfp := fieldPresenceScore_mem j
  have hfq := fieldQualityScore_mem j
  have hc := completenessScore_mem j
  have hdc := dataConsistencyScore_mem j
  have hsum : 0 ≤ fieldPresenceScore j * (30/100) + fieldQualityScore j * (25/100) +
        completenessScore j * (20/100) + dataConsistencyScore j * (25/100) ∧
      fieldPresenceScore j * (30/100) + fieldQualityScore j * (25/100) +
        completenessScore j * (20/100) + dataConsistencyScore j * (25/100) ≤ 1 := by
    constructor <;> nlinarith [hfp.1, hfp.2, hfq.1, hfq.2, hc.1, hc.2, hdc.1, hdc.2]
  exact ⟨round2_mem_unit hfp.1 hfp.2, round2_mem_unit hfq.1 hfq.2,
    round2_mem_unit hc.1 hc.2, round2_mem_unit hdc.1 hdc.2,
    round2_mem_unit hsum.1 hsum.2, rfl, round2_abs_sub _⟩

/-- Witness for C9: the one-bad-line-item invoice is invalid and indeed
contains a CRITICAL error. -/
theorem validation_confidence_range_witness :
    ∃ e ∈ (validate_invoice_math oneBadInvoice).errors,
      e.severity = Severity.CRITICAL :=
  (validation_confidence_range.1 oneBadInvoice).1 (by decide)

end InvoiceX
